import Mathlib

/-!
Verification development for the Remote Signal Monitor core
(session registry, command wrapper, vendor-text parsers, signal assessor).

The Python source is shallowly embedded: strings are modelled as lists of
characters, Python floats as exact rationals (the numeric texts handled by
the program are finite decimals, on which the two agree; deviations such as
binary-float tie-rounding are noted at the definitions concerned), stateful
routes as explicit state-passing functions, and the SSH transport as an
oracle parameter mapping a command string to its outcome.
-/

attribute [local semireducible] Rat.add Rat.mul Rat.sub Rat.inv Rat.ofScientific

namespace RSM

/-- Strings are modelled as lists of characters. -/
abbrev Str := List Char

/-- Characters that Python's str.strip() and the regex class \s remove
(ASCII subset; the program's inputs are ASCII modem output). -/
def pyWs (c : Char) : Bool :=
  c = ' ' ∨ c = '\t' ∨ c = '\n' ∨ c = '\r' ∨ c.toNat = 11 ∨ c.toNat = 12

/-- Left strip, as in Python lstrip(). -/
def pyLstrip (s : Str) : Str := s.dropWhile pyWs

/-- Right strip, as in Python rstrip(). -/
def pyRstrip (s : Str) : Str := (s.reverse.dropWhile pyWs).reverse

/-- Python str.strip(). -/
def pyStrip (s : Str) : Str := pyRstrip (pyLstrip s)

/-- ASCII lower-casing of one character (Python str.lower on the ASCII
range; the vendor text is ASCII). -/
def lowerC (c : Char) : Char :=
  if 'A' ≤ c ∧ c ≤ 'Z' then Char.ofNat (c.toNat + 32) else c

/-- ASCII upper-casing of one character. -/
def upperC (c : Char) : Char :=
  if 'a' ≤ c ∧ c ≤ 'z' then Char.ofNat (c.toNat - 32) else c

/-- Python str.lower() (ASCII model). -/
def pyLower (s : Str) : Str := s.map lowerC

/-- Python str.upper() (ASCII model). -/
def pyUpper (s : Str) : Str := s.map upperC

/-- Python str.startswith(pat). -/
def startsWithS (pat s : Str) : Bool := List.isPrefixOf pat s

/-- Python str.endswith(pat). -/
def endsWithS (pat s : Str) : Bool := List.isPrefixOf pat.reverse s.reverse

/-- Python `pat in s` (substring test). -/
def containsSub (pat s : Str) : Bool :=
  match s with
  | [] => startsWithS pat []
  | _ :: rest => startsWithS pat s || containsSub pat rest

/-- The part after the first colon: s.split(":", 1)[1].  Returns none when
the string has no colon (the callers guard against that case). -/
def afterFirstColon : Str → Option Str
  | [] => none
  | c :: rest => if c = ':' then some rest else afterFirstColon rest

/-- Worker for replaceAll, structurally recursive on a fuel bounded below
by the string length (each step consumes at least one character, so the
fuel-exhausted fallback is unreachable from replaceAll). -/
def replaceAllF (pat rep : Str) : Nat → Str → Str
  | _, [] => []
  | 0, s => s
  | fuel + 1, c :: rest =>
    if startsWithS pat (c :: rest) ∧ ¬ pat = [] then
      rep ++ replaceAllF pat rep fuel (rest.drop (pat.length - 1))
    else
      c :: replaceAllF pat rep fuel rest

/-- Python str.replace(pat, rep) with a nonempty pattern: replace every
non-overlapping occurrence, scanning left to right. -/
def replaceAll (pat rep : Str) (s : Str) : Str := replaceAllF pat rep s.length s

/-- Line-break characters recognised by Python str.splitlines()
(the common ones: LF, CR, VT, FF, FS, GS, RS, NEL, LS, PS; CRLF is
treated as a single break by the main splitter). -/
def isLineBreak (c : Char) : Bool :=
  c = '\n' ∨ c = '\r' ∨ c.toNat = 11 ∨ c.toNat = 12 ∨ c.toNat = 28 ∨
  c.toNat = 29 ∨ c.toNat = 30 ∨ c.toNat = 133 ∨ c.toNat = 8232 ∨ c.toNat = 8233

/-- Worker for splitlines: acc holds the current line reversed. -/
def splitlinesAux : Str → Str → List Str
  | [], acc => if acc = [] then [] else [acc.reverse]
  | '\r' :: '\n' :: rest, acc => acc.reverse :: splitlinesAux rest []
  | c :: rest, acc =>
    if isLineBreak c then acc.reverse :: splitlinesAux rest []
    else splitlinesAux rest (c :: acc)

/-- Python str.splitlines(). -/
def pySplitlines (s : Str) : List Str := splitlinesAux s []

/-- Python truthiness-based `value or default` for an optional string:
both a missing value and an empty string fall back to the default. -/
def pyOrS (v : Option Str) (d : Str) : Str :=
  match v with
  | none => d
  | some s => if s = [] then d else s

/-! ### Leftmost-match scanning (the re.search patterns used by the source)

Each regex of the source is compiled by hand into a matcher that tries to
match at the head of a suffix; reSearch runs the matcher at every position
left to right and returns the first success, which is re.search semantics
for these patterns (their character classes are disjoint from the literals
that follow them, so greedy matching without backtracking is exact). -/

/-- Leftmost application of a matcher (all source patterns need at least
one character, so the empty suffix never matches). -/
def reSearch (m : Str → Option α) : Str → Option α
  | [] => none
  | c :: rest =>
    match m (c :: rest) with
    | some r => some r
    | none => reSearch m rest

/-- Case-insensitive literal match at the head; returns the rest. -/
def matchLitCI : Str → Str → Option Str
  | [], s => some s
  | _ :: _, [] => none
  | p :: ps, c :: cs => if lowerC c = lowerC p then matchLitCI ps cs else none

/-- A nonempty maximal run of characters satisfying p (a `[class]+`). -/
def run1 (p : Char → Bool) (s : Str) : Option Str :=
  match s.takeWhile p with
  | [] => none
  | r => some r

/-- re.search(pat + capture-run, line, IGNORECASE): literal then a
nonempty run of the class. -/
def searchLitRun (pat : Str) (p : Char → Bool) (s : Str) : Option Str :=
  reSearch (fun t => (matchLitCI pat t).bind (run1 p)) s

/-- Like searchLitRun but with an interposed `\s*` (used by the patterns
with optional whitespace before the number). -/
def searchLitWsRun (pat : Str) (p : Char → Bool) (s : Str) : Option Str :=
  reSearch (fun t => (matchLitCI pat t).bind (fun r => run1 p (r.dropWhile pyWs))) s

/-- re.search with an alternation of literals then a capture run, e.g.
(lte_cell_id|nr_cell_id):(\d+). -/
def searchAltRun (pats : List Str) (p : Char → Bool) (s : Str) : Option Str :=
  reSearch
    (fun t => pats.foldr (fun pat acc => ((matchLitCI pat t).bind (run1 p)).orElse (fun _ => acc)) none)
    s

/-- Alternation with the interposed `\s*`. -/
def searchAltWsRun (pats : List Str) (p : Char → Bool) (s : Str) : Option Str :=
  reSearch
    (fun t => pats.foldr
      (fun pat acc => ((matchLitCI pat t).bind (fun r => run1 p (r.dropWhile pyWs))).orElse (fun _ => acc)) none)
    s

/-- The character class [-\d.] of the metric-value captures. -/
def numClass (c : Char) : Bool := c = '-' ∨ c.isDigit ∨ c = '.'

/-- The class [^\s] (lte_band_width / nr_band captures). -/
def nonWsClass (c : Char) : Bool := ¬ pyWs c

/-- The class [\w/+-] of the generic band capture (\w taken as ASCII). -/
def wordBandClass (c : Char) : Bool :=
  c.isDigit ∨ ('a' ≤ c ∧ c ≤ 'z') ∨ ('A' ≤ c ∧ c ≤ 'Z') ∨ c = '_' ∨ c = '/' ∨ c = '+' ∨ c = '-'

/-- re.search of \(([^)]+)\): the first parenthesis group with a nonempty
body that is actually closed. -/
def searchParen (s : Str) : Option Str :=
  reSearch
    (fun t =>
      match t with
      | '(' :: rest =>
        match rest.takeWhile (fun c => ¬ c = ')') with
        | [] => none
        | r => if startsWithS [')'] (rest.drop r.length) then some r else none
      | _ => none)
    s

/-- Matcher for ([+-]?\d+(?:\.\d+)?) at the head of a suffix. -/
def matchNumber (s : Str) : Option Str :=
  let core : Str → Option Str := fun t =>
    match t.takeWhile Char.isDigit with
    | [] => none
    | ds =>
      let rest := t.drop ds.length
      match rest with
      | '.' :: r2 =>
        match r2.takeWhile Char.isDigit with
        | [] => some ds
        | fs => some (ds ++ '.' :: fs)
      | _ => some ds
  match s with
  | c :: rest =>
    if c = '+' ∨ c = '-' then (core rest).map (fun n => c :: n)
    else core s
  | [] => none

/-! ### Python float values

Parsed metric texts are finite decimals, modelled exactly by rationals.
The full float() grammar also admits inf/nan, which the assessor can in
principle receive, so they are carried in PyF; underscore digit
separators (also accepted by Python) are not modelled, and the binary
representation of floats is replaced by exact rational arithmetic. -/

inductive PyF where
  | nan : PyF
  | inf : Bool → PyF            -- true = +inf
  | val : Rat → PyF
deriving DecidableEq, Repr

def digitsToNat (s : Str) : Nat :=
  s.foldl (fun a c => 10 * a + (c.toNat - 48)) 0

def pow10 (k : Nat) : Nat := 10 ^ k

/-- The mantissa/exponent part of float(): digits [. digits] | . digits,
then an optional exponent; must consume the whole string. -/
def pyFloatBody (s : Str) : Option Rat :=
  let ds := s.takeWhile Char.isDigit
  let rest := s.drop ds.length
  let withFrac : Option (Rat × Str) :=
    match rest with
    | '.' :: r2 =>
      let fs := r2.takeWhile Char.isDigit
      if ds = [] ∧ fs = [] then none
      else some ((digitsToNat ds : Rat) + (digitsToNat fs : Rat) / (pow10 fs.length : Rat),
                 r2.drop fs.length)
    | _ => if ds = [] then none else some ((digitsToNat ds : Rat), rest)
  match withFrac with
  | none => none
  | some (m, rest2) =>
    match rest2 with
    | [] => some m
    | e :: r3 =>
      if e = 'e' ∨ e = 'E' then
        let (sgn, r4) : Bool × Str :=
          match r3 with
          | '+' :: r => (true, r)
          | '-' :: r => (false, r)
          | r => (true, r)
        let es := r4.takeWhile Char.isDigit
        if es = [] ∨ ¬ r4.drop es.length = [] then none
        else some (if sgn then m * (pow10 (digitsToNat es) : Rat)
                   else m / (pow10 (digitsToNat es) : Rat))
      else none

/-- Python float(s): strip whitespace, optional sign, then a decimal body
or an inf/nan literal; none models a raised ValueError. -/
def pyFloat? (s : Str) : Option PyF :=
  let t := pyStrip s
  let (neg, body) : Bool × Str :=
    match t with
    | '+' :: r => (false, r)
    | '-' :: r => (true, r)
    | r => (false, r)
  if pyLower body = ['i', 'n', 'f'] ∨
     pyLower body = ['i', 'n', 'f', 'i', 'n', 'i', 't', 'y'] then
    some (PyF.inf (¬ neg))
  else if pyLower body = ['n', 'a', 'n'] then
    some PyF.nan
  else
    match pyFloatBody body with
    | some q => some (PyF.val (if neg then -q else q))
    | none => none

/-- The source's _to_float: float(value) with exceptions mapped to None.
Its arguments are regex captures over the classes [-+0-9.], on which
float() never produces inf/nan, so mapping those to none is unreachable
and this agrees with the source on every reachable input. -/
def to_float (s : Str) : Option Rat :=
  match pyFloat? s with
  | some (PyF.val q) => some q
  | _ => none

/-- The source's _extract_first_float: first ([+-]?\d+(?:\.\d+)?) match
converted by _to_float. -/
def extract_first_float (s : Str) : Option Rat :=
  (reSearch matchNumber s).bind to_float

/-- Round an integer-valued choice half to even (the tie rule of Python's
round and of float formatting). -/
def rhe (q : Rat) : Int :=
  let f := ⌊q⌋
  let frac := q - (f : Rat)
  if frac < 1 / 2 then f
  else if (1 : Rat) / 2 < frac then f + 1
  else if f % 2 = 0 then f else f + 1

/-- The source's _round_value: round(x, 1) with None (and NaN, which the
x != x test filters) passed through as absent.  Exact rational
round-half-even; Python rounds the binary float, which agrees on the
finite decimals this program handles. -/
def round_value (v : Option Rat) : Option Rat :=
  match v with
  | none => none
  | some q => some ((rhe (q * 10) : Rat) / 10)

/-- Smallest k with q * 10^k integral (the values printed by the program
are finite decimals, so the bounded search always succeeds for them). -/
def decExp (den : Nat) : Option Nat :=
  (List.range 40).find? (fun k => den ∣ pow10 k)

/-- Left-pad a digit string with zeros to the given length. -/
def padZeros (n : Nat) (s : Str) : Str :=
  List.replicate (n - s.length) '0' ++ s

/-- Python str() / f-string formatting of a float holding an exact
decimal: shortest decimal digits, with a forced ".0" for integral values
(str(-95.0) is "-95.0", str(-9.5) is "-9.5"). -/
def pyFloatRepr (q : Rat) : Str :=
  match decExp q.den with
  | none => (toString q).toList
  | some k =>
    let n : Int := q.num * (pow10 k / q.den : Nat)
    let sgn : Str := if n < 0 then ['-'] else []
    let digits := (Nat.repr n.natAbs).toList
    if k = 0 then sgn ++ digits ++ ('.' :: '0' :: [])
    else
      let padded := padZeros (k + 1) digits
      sgn ++ padded.take (padded.length - k) ++ '.' :: padded.drop (padded.length - k)

/-- Python format(x, ".1f") for the exact rationals of this program:
round half even to one decimal and print one fractional digit. -/
def fmt1f (q : Rat) : Str :=
  let n := rhe (q * 10)
  let sgn : Str := if n < 0 then ['-'] else []
  sgn ++ (Nat.repr (n.natAbs / 10)).toList ++ '.' :: (Nat.repr (n.natAbs % 10)).toList

/-! ### Command Wrapper (_build_ros_at_chat_cmd) -/

/-- The cleaning pipeline applied to the AT command: strip, drop carriage
returns, turn each newline into a space, escape backslashes then double
quotes. -/
def cleanAtCmd (at_cmd : Str) : Str :=
  let c1 := pyStrip at_cmd
  let c2 := replaceAll ['\r'] [] c1
  let c3 := replaceAll ['\n'] [' '] c2
  let c4 := replaceAll ['\\'] ['\\', '\\'] c3
  replaceAll ['"'] ['\\', '"'] c4

/-- The source's _build_ros_at_chat_cmd: wrap a cleaned AT command in the
RouterOS at-chat invocation for the given interface. -/
def build_ros_at_chat_cmd (interface : Str) (at_cmd : Str) : Str :=
  "/interface lte at-chat ".toList ++ interface ++ " input=\"".toList ++ cleanAtCmd at_cmd ++ ['"']

/-! ### Temperature parser (_parse_temp_output) -/

/-- re.search(label + r":\s*([+-]?\d+)C", text, IGNORECASE), returning the
signed integer reading. -/
def searchTemp (label : Str) (text : Str) : Option Int :=
  reSearch
    (fun t =>
      (matchLitCI (label ++ [':']) t).bind (fun r =>
        let r2 := r.dropWhile pyWs
        let (neg, r3) : Bool × Str :=
          match r2 with
          | '+' :: r => (false, r)
          | '-' :: r => (true, r)
          | r => (false, r)
        match r3.takeWhile Char.isDigit with
        | [] => none
        | ds =>
          if startsWithS ['C'] (pyUpper (r3.drop ds.length)) then
            some (if neg then -(digitsToNat ds : Int) else (digitsToNat ds : Int))
          else none))
    text

/-- The three sensor labels probed, in source order. -/
def tempLabels : List Str := ["TSENS".toList, "PA".toList, "Skin Sensor".toList]

/-- The readings found, in label order. -/
def tempReadings (text : Str) : List Int :=
  tempLabels.filterMap (fun l => searchTemp l text)

/-- The source's _parse_temp_output: "-" when no sensor line matches,
otherwise the mean of the found readings rendered at one decimal inside
the fixed "Media ...¬∞C" text (the suffix characters are copied verbatim
from the source file). -/
def parse_temp_output (text : Str) : Str :=
  let temps := tempReadings text
  if temps = [] then "-".toList
  else
    let average : Rat := ((temps.foldl (· + ·) 0 : Int) : Rat) / (temps.length : Rat)
    "Media ".toList ++ fmt1f average ++ "¬∞C".toList

/-! ### ATI parser (_parse_ati_output) -/

/-- Python str.isprintable for the ASCII range (the sanitizer keeps
printable characters and tabs; control characters are removed). -/
def pyPrintable (c : Char) : Bool := 32 ≤ c.toNat ∧ ¬ c.toNat = 127

structure AtiInfo where
  manufacturer : Str
  model : Str
  revision : Str
  svn : Str
  imei : Str
  gcap : Str
  mpn : Str
deriving DecidableEq, Repr

def initAti : AtiInfo :=
  ⟨"-".toList, "-".toList, "-".toList, "-".toList, "-".toList, "-".toList, "-".toList⟩

def atiKeys : List Str :=
  ["manufacturer".toList, "model".toList, "revision".toList, "svn".toList,
   "imei".toList, "gcap".toList, "mpn".toList]

def atiSet (p : AtiInfo) (key v : Str) : AtiInfo :=
  if key = "manufacturer".toList then { p with manufacturer := v }
  else if key = "model".toList then { p with model := v }
  else if key = "revision".toList then { p with revision := v }
  else if key = "svn".toList then { p with svn := v }
  else if key = "imei".toList then { p with imei := v }
  else if key = "gcap".toList then { p with gcap := v }
  else if key = "mpn".toList then { p with mpn := v }
  else p

/-- re.match of ^(\+?(manufacturer|model|...))\s*[:=]?\s*(.*)$ (anchored,
IGNORECASE): returns (key-with-plus, value). -/
def atiMatch (line : Str) : Option (Str × Str) :=
  let (plus, rest) : Str × Str :=
    match line with
    | '+' :: r => (['+'], r)
    | r => ([], r)
  atiKeys.foldr
    (fun k acc =>
      match matchLitCI k rest with
      | some r =>
        let r2 := r.dropWhile pyWs
        let r3 := match r2 with
          | ':' :: t => t.dropWhile pyWs
          | '=' :: t => t.dropWhile pyWs
          | t => t
        some (plus ++ rest.take k.length, r3)
      | none => acc)
    none

/-- Drop a leading run of plus signs: str.lstrip("+"). -/
def lstripPlus (s : Str) : Str := s.dropWhile (fun c => c = '+')

/-- One line of the ATI parse loop. -/
def atiLine (p : AtiInfo) (raw : Str) : AtiInfo :=
  let sanitized := raw.filter (fun c => pyPrintable c ∨ c = '\t')
  let line := pyStrip sanitized
  if line = [] ∨ pyUpper line = "OK".toList then p
  else
    match atiMatch line with
    | some (key, value) =>
      let k := pyLower (pyStrip (lstripPlus key))
      let v := pyStrip value
      atiSet p k (if v = [] then "-".toList else v)
    | none =>
      if ¬ containsSub [':'] line then p
      else
        match afterFirstColon line with
        | none => p
        | some after =>
          let key := line.take (line.length - after.length - 1)
          let nk := pyLower (lstripPlus (pyStrip key))
          if atiKeys.contains nk then
            atiSet p nk (let v := pyStrip after; if v = [] then "-".toList else v)
          else p

/-- The source's _parse_ati_output. -/
def parse_ati_output (text : Str) : AtiInfo :=
  (pySplitlines text).foldl atiLine initAti

/-! ### Signal quality assessor (_assess_signal) -/

/-- Python float comparison value >= bound (NaN compares false; +inf
true; -inf false). -/
def pyGeF (v : PyF) (bound : Rat) : Bool :=
  match v with
  | PyF.nan => false
  | PyF.inf b => b
  | PyF.val q => bound ≤ q

/-- Python truthiness of a float (0.0 is falsy; NaN and infinities are
truthy). -/
def pyTruthyF (v : PyF) : Bool :=
  match v with
  | PyF.val q => ¬ q = 0
  | _ => true

/-- Python `x or d` where x is an optional float and d a literal. -/
def pyOrF (v : Option PyF) (d : Rat) : PyF :=
  match v with
  | none => PyF.val d
  | some x => if pyTruthyF x then x else PyF.val d

/-- One display-string parse of _assess_signal:
float(s.replace(unit, "")) if s.endswith(unit) else None, with a raised
ValueError propagated as the error case. -/
def parseUnitVal (s unit : Str) : Except Unit (Option PyF) :=
  if endsWithS unit s then
    match pyFloat? (replaceAll unit [] s) with
    | some v => Except.ok (some v)
    | none => Except.error ()
  else Except.ok none

/-- The source's _assess_signal. -/
def assess_signal (rsrp rsrq snr : Str) : Str :=
  match parseUnitVal rsrp "dBm".toList, parseUnitVal rsrq "dB".toList,
        parseUnitVal snr "dB".toList with
  | Except.ok rsrp_val, Except.ok rsrq_val, Except.ok snr_val =>
    match rsrp_val with
    | none => "-".toList
    | some rv =>
      if pyGeF rv (-90) ∧ pyGeF (pyOrF snr_val 0) 10 then "Ottimo".toList
      else if pyGeF rv (-105) ∧ pyGeF (pyOrF rsrq_val (-40)) (-14) then "Buono".toList
      else if pyGeF rv (-115) then "Discreto".toList
      else "Debole".toList
  | _, _, _ => "-".toList

/-! ### Vendor debug-text parser (_parse_debug_output) -/

structure AntennaInfo where
  label : Str
  value : Option Rat
  display : Str
deriving DecidableEq, Repr

structure MetricInfo where
  key : Str
  label : Str
  value : Option Rat
  display : Str
deriving DecidableEq, Repr

/-- The transient current_entry dict of the parser. -/
structure CellEntry where
  technology : Str
  role : Str
  ca_index : Option Nat
  band : Option Str
  bandwidth : Option Str
  channel : Option Str
  pci : Option Str
  rsrp : Option Rat
  rsrq : Option Rat
  rssi : Option Rat
  snr : Option Rat
  antennas : List AntennaInfo
  rx_diversity : Option Str
  tx_power : Option Rat
deriving DecidableEq, Repr

/-- A finalized per-cell display record. -/
structure DetailEntry where
  title : Str
  technology : Str
  band : Option Str
  band_display : Str
  bandwidth : Str
  channel : Str
  pci : Str
  rx_diversity : Str
  tx_power : Str
  metrics : List MetricInfo
  antennas : List AntennaInfo
deriving DecidableEq, Repr

/-- The scalar fields of the info dict. -/
structure InfoAcc where
  rat : Str
  mccmnc : Str
  bands : Str
  channel : Str
  channels : Str
  pci : Str
  cell_id : Str
  tac : Str
  rsrp : Str
  rsrq : Str
  snr : Str
  rssi : Str
  rsrp_value : Option Rat
  rsrq_value : Option Rat
  snr_value : Option Rat
  rssi_value : Option Rat
deriving DecidableEq, Repr

/-- The returned snapshot: scalar fields plus the advanced entries. -/
structure DebugInfo where
  info : InfoAcc
  advanced : List DetailEntry
deriving DecidableEq, Repr

def dashS : Str := ['-']

def initInfo : InfoAcc :=
  { rat := dashS, mccmnc := dashS, bands := dashS, channel := dashS, channels := dashS,
    pci := dashS, cell_id := dashS, tac := dashS, rsrp := dashS, rsrq := dashS,
    snr := dashS, rssi := dashS, rsrp_value := none, rsrq_value := none,
    snr_value := none, rssi_value := none }

/-- Python value.split(sep) for a single-character separator. -/
def splitOnChar (sep : Char) : Str → List Str
  | [] => [[]]
  | c :: rest =>
    if c = sep then [] :: splitOnChar sep rest
    else
      match splitOnChar sep rest with
      | [] => [[c]]
      | h :: t => (c :: h) :: t

/-- Worker for splitOnSeq, structurally recursive on a fuel bounded below
by the string length. -/
def splitOnSeqF (sep : Str) : Nat → Str → List Str
  | _, [] => [[]]
  | 0, s => [s]
  | fuel + 1, c :: rest =>
    if startsWithS sep (c :: rest) ∧ ¬ sep = [] then
      [] :: splitOnSeqF sep fuel (rest.drop (sep.length - 1))
    else
      match splitOnSeqF sep fuel rest with
      | [] => [[c]]
      | h :: t => (c :: h) :: t

/-- Python value.split(sep) for a multi-character separator. -/
def splitOnSeq (sep : Str) (s : Str) : List Str := splitOnSeqF sep s.length s

/-- The source's _parse_antennas (both call sites use the default
"Antenna" label prefix, which is therefore fixed here). -/
def parse_antennas (line : Str) : List AntennaInfo :=
  match searchParen line with
  | none => []
  | some inner =>
    (splitOnChar ',' inner).enum.map (fun p =>
      let value := extract_first_float (pyStrip p.2)
      { label := "Antenna ".toList ++ (Nat.repr (p.1 + 1)).toList,
        value := value,
        display :=
          match value with
          | some q => pyFloatRepr q ++ " dBm".toList
          | none => "N/A".toList })

/-- Truthiness of an optional string field of an entry dict. -/
def pyTruthyO (v : Option Str) : Bool :=
  match v with
  | none => false
  | some s => ¬ s = []

/-- One metric record of _finalize_entry's add_metric. -/
def mkMetric (key label : Str) (value : Option Rat) (unit : Str) : MetricInfo :=
  let normalized := round_value value
  { key := key, label := label, value := normalized,
    display :=
      match normalized with
      | some q => pyFloatRepr q ++ ' ' :: unit
      | none => "N/A".toList }

/-- The source's _finalize_entry: append the display record of the open
entry (if any) to the advanced list. -/
def finalize_entry (entry : Option CellEntry) (advanced : List DetailEntry) : List DetailEntry :=
  match entry with
  | none => advanced
  | some e =>
    let isLte := e.technology = "LTE".toList
    let band_display :=
      if isLte ∧ pyTruthyO e.band then
        "Band ".toList ++ (match e.band with | some b => b | none => [])
      else pyOrS e.band "N/A".toList
    let title0 := if isLte then "Primary 4G".toList else "Primary 5G".toList
    let title1 :=
      if isLte ∧ e.role = "secondary".toList then
        pyStrip ("CA 4G #".toList ++ (match e.ca_index with | some n => (Nat.repr n).toList | none => []))
      else title0
    let title :=
      if ¬ band_display = "N/A".toList then title1 ++ " (".toList ++ band_display ++ [')']
      else title1
    let detail : DetailEntry :=
      { title := title,
        technology := e.technology,
        band := e.band,
        band_display := band_display,
        bandwidth := pyOrS e.bandwidth dashS,
        channel := pyOrS e.channel dashS,
        pci := pyOrS e.pci dashS,
        rx_diversity := pyOrS e.rx_diversity [],
        tx_power :=
          match e.tx_power with
          | some v =>
            (match round_value (some v) with
             | some q => pyFloatRepr q
             | none => "None".toList) ++ " dBm".toList
          | none => [],
        metrics :=
          [mkMetric "rsrq".toList (if isLte then "RSRQ".toList else "SS_RSRQ".toList) e.rsrq "dB".toList,
           mkMetric "rsrp".toList (if isLte then "RSRP".toList else "SS_RSRP".toList) e.rsrp "dBm".toList,
           mkMetric "rssi".toList "RSSI".toList e.rssi "dBm".toList,
           mkMetric "snr".toList (if isLte then "SINR".toList else "SS_SINR".toList) e.snr "dB".toList],
        antennas := e.antennas }
    advanced ++ [detail]

/-- The repeated idiom guarding the top-level first-seen metrics: when
the display field still holds "-", store the numeric shadow value and its
display text (or "-" again when the value is absent). -/
def setInfoMetric (cur : Str × Option Rat) (v : Option Rat) (unit : Str) : Str × Option Rat :=
  if cur.1 = dashS then
    (match v with
     | some q => pyFloatRepr q ++ unit
     | none => dashS, v)
  else cur

/-- The parser loop state. -/
structure ParseState where
  info : InfoAcc
  current : Option CellEntry
  scellCounter : Nat
  advanced : List DetailEntry
  pendingLteAntennas : List AntennaInfo
  pendingLteDiversity : Option Str
  pendingLteTxPower : Option Rat
  pendingNrTxPower : Option Rat
deriving DecidableEq, Repr

def initState : ParseState :=
  { info := initInfo, current := none, scellCounter := 0, advanced := [],
    pendingLteAntennas := [], pendingLteDiversity := none,
    pendingLteTxPower := none, pendingNrTxPower := none }

/-- Bottom block, cell-id capture (unconditional overwrite). -/
def bbCell (line : Str) (info : InfoAcc) : InfoAcc :=
  match searchAltRun ["lte_cell_id:".toList, "nr_cell_id:".toList] Char.isDigit line with
  | some v => { info with cell_id := v }
  | none => info

/-- Bottom block, tac capture (unconditional overwrite). -/
def bbTac (line : Str) (info : InfoAcc) : InfoAcc :=
  match searchAltRun ["lte_tac:".toList, "nr_tac:".toList] Char.isDigit line with
  | some v => { info with tac := v }
  | none => info

/-- Bottom block, first-seen channel capture. -/
def bbChannel (line : Str) (info : InfoAcc) : InfoAcc :=
  match searchLitRun "channel:".toList Char.isDigit line with
  | some v => if info.channel = dashS then { info with channel := v } else info
  | none => info

/-- Bottom block, first-seen pci capture. -/
def bbPci (line : Str) (info : InfoAcc) : InfoAcc :=
  match searchLitRun "pci:".toList Char.isDigit line with
  | some v => if info.pci = dashS then { info with pci := v } else info
  | none => info

/-- Bottom block, band accumulation (this intermediate value is
overwritten by the final band display). -/
def bbBands (line : Str) (info : InfoAcc) : InfoAcc :=
  match searchAltRun ["lte_band:".toList, "nr_band:".toList] wordBandClass line with
  | some b =>
    let existing := if ¬ info.bands = dashS then splitOnSeq ", ".toList info.bands else []
    let existing2 := if existing.contains b then existing else existing ++ [b]
    { info with bands := List.intercalate ", ".toList existing2 }
  | none => info

/-- First-seen top-level rsrp update (the shared idiom, used both inside
the current-entry branches and in the bottom block). -/
def seedMetricRsrp (i : InfoAcc) (v : Option Rat) : InfoAcc :=
  let p := setInfoMetric (i.rsrp, i.rsrp_value) v "dBm".toList
  { i with rsrp := p.1, rsrp_value := p.2 }

/-- First-seen top-level rsrq update. -/
def seedMetricRsrq (i : InfoAcc) (v : Option Rat) : InfoAcc :=
  let p := setInfoMetric (i.rsrq, i.rsrq_value) v "dB".toList
  { i with rsrq := p.1, rsrq_value := p.2 }

/-- First-seen top-level snr update. -/
def seedMetricSnr (i : InfoAcc) (v : Option Rat) : InfoAcc :=
  let p := setInfoMetric (i.snr, i.snr_value) v "dB".toList
  { i with snr := p.1, snr_value := p.2 }

/-- First-seen top-level rssi update. -/
def seedMetricRssi (i : InfoAcc) (v : Option Rat) : InfoAcc :=
  let p := setInfoMetric (i.rssi, i.rssi_value) v "dBm".toList
  { i with rssi := p.1, rssi_value := p.2 }

/-- Bottom block, first-seen rsrp capture. -/
def bbRsrp (line : Str) (info : InfoAcc) : InfoAcc :=
  match searchAltWsRun ["lte_rsrp:".toList, "nr_rsrp:".toList] numClass line with
  | some cap => seedMetricRsrp info (to_float cap)
  | none => info

/-- Bottom block, first-seen rsrq capture. -/
def bbRsrq (line : Str) (info : InfoAcc) : InfoAcc :=
  match searchAltWsRun ["rsrq:".toList, "nr_rsrq:".toList] numClass line with
  | some cap => seedMetricRsrq info (to_float cap)
  | none => info

/-- Bottom block, first-seen snr capture. -/
def bbSnr (line : Str) (info : InfoAcc) : InfoAcc :=
  match searchAltWsRun ["lte_snr:".toList, "nr_snr:".toList] numClass line with
  | some cap => seedMetricSnr info (to_float cap)
  | none => info

/-- Bottom block, first-seen rssi capture. -/
def bbRssi (line : Str) (info : InfoAcc) : InfoAcc :=
  match searchLitRun "lte_rssi:".toList numClass line with
  | some cap => seedMetricRssi info (to_float cap)
  | none => info

/-- The fall-through tail of the loop body: the unconditional cell-id/tac
captures and the first-seen top-level captures, in source order. -/
def bottomBlock (info : InfoAcc) (line : Str) : InfoAcc :=
  bbRssi line (bbSnr line (bbRsrq line (bbRsrp line
    (bbBands line (bbPci line (bbChannel line (bbTac line (bbCell line info))))))))

/-- Current-entry branch for channel:-prefixed lines of an LTE entry. -/
def cbChannel (st : ParseState) (e : CellEntry) (line : Str) : ParseState :=
  let ch := searchLitRun "channel:".toList Char.isDigit line
  let pc := searchLitRun "pci:".toList Char.isDigit line
  let e1 := match ch with | some c => { e with channel := some c } | none => e
  let info1 :=
    match ch with
    | some c => if st.info.channel = dashS then { st.info with channel := c } else st.info
    | none => st.info
  let e2 := match pc with | some c => { e1 with pci := some c } | none => e1
  let info2 :=
    match pc with
    | some c => if info1.pci = dashS then { info1 with pci := c } else info1
    | none => info1
  { st with current := some e2, info := info2 }

/-- Current-entry branch for nr_channel: lines of an NR entry. -/
def cbNrChannel (st : ParseState) (e : CellEntry) (line : Str) : ParseState :=
  let v := pyStrip ((afterFirstColon line).getD [])
  let info1 := if st.info.channel = dashS then { st.info with channel := v } else st.info
  { st with current := some { e with channel := some v }, info := info1 }

/-- Current-entry branch for nr_pci: lines of an NR entry. -/
def cbNrPci (st : ParseState) (e : CellEntry) (line : Str) : ParseState :=
  let v := pyStrip ((afterFirstColon line).getD [])
  let info1 := if st.info.pci = dashS then { st.info with pci := v } else st.info
  { st with current := some { e with pci := some v }, info := info1 }

/-- Current-entry branch for nr_band_width: lines of an NR entry. -/
def cbNrBw (st : ParseState) (e : CellEntry) (line : Str) : ParseState :=
  let v := pyStrip ((afterFirstColon line).getD [])
  { st with current := some { e with bandwidth := some v } }

/-- Current-entry branch for lte_rsrp: lines of an LTE entry (rsrp and
rsrq captures). -/
def cbLteRsrp (st : ParseState) (e : CellEntry) (line : Str) : ParseState :=
  let rsrpCap := searchLitRun "lte_rsrp:".toList numClass line
  let rsrqCap := searchLitRun "rsrq:".toList numClass line
  let e1 := match rsrpCap with | some c => { e with rsrp := to_float c } | none => e
  let info1 :=
    match rsrpCap with
    | some c => seedMetricRsrp st.info (to_float c)
    | none => st.info
  let e2 := match rsrqCap with | some c => { e1 with rsrq := to_float c } | none => e1
  let info2 :=
    match rsrqCap with
    | some c => seedMetricRsrq info1 (to_float c)
    | none => info1
  { st with current := some e2, info := info2 }

/-- Current-entry branch for lte_rssi: lines of an LTE entry (rssi and
snr captures). -/
def cbLteRssi (st : ParseState) (e : CellEntry) (line : Str) : ParseState :=
  let rssiCap := searchLitRun "lte_rssi:".toList numClass line
  let snrCap := searchLitRun "lte_snr:".toList numClass line
  let e1 := match rssiCap with | some c => { e with rssi := to_float c } | none => e
  let info1 :=
    match rssiCap with
    | some c => seedMetricRssi st.info (to_float c)
    | none => st.info
  let e2 := match snrCap with | some c => { e1 with snr := to_float c } | none => e1
  let info2 :=
    match snrCap with
    | some c => seedMetricSnr info1 (to_float c)
    | none => info1
  { st with current := some e2, info := info2 }

/-- Current-entry branch for nr_rsrp: lines of an NR entry (rsrp,
diversity and inline antenna captures). -/
def cbNrRsrp (st : ParseState) (e : CellEntry) (line : Str) : ParseState :=
  let rsrpCap := searchLitRun "nr_rsrp:".toList numClass line
  let divCap := searchLitRun "rx_diversity:".toList Char.isDigit line
  let e1 := match rsrpCap with | some c => { e with rsrp := to_float c } | none => e
  let info1 :=
    match rsrpCap with
    | some c => seedMetricRsrp st.info (to_float c)
    | none => st.info
  let e2 := match divCap with | some d => { e1 with rx_diversity := some d } | none => e1
  let ants := parse_antennas line
  let e3 := if ¬ ants = [] then { e2 with antennas := ants } else e2
  { st with current := some e3, info := info1 }

/-- Current-entry branch for nr_rsrq: lines of an NR entry. -/
def cbNrRsrq (st : ParseState) (e : CellEntry) (line : Str) : ParseState :=
  match searchLitRun "nr_rsrq:".toList numClass line with
  | some c =>
    { st with current := some { e with rsrq := to_float c },
              info := seedMetricRsrq st.info (to_float c) }
  | none => st

/-- Current-entry branch for nr_rssi: lines of an NR entry. -/
def cbNrRssi (st : ParseState) (e : CellEntry) (line : Str) : ParseState :=
  match searchLitRun "nr_rssi:".toList numClass line with
  | some c =>
    { st with current := some { e with rssi := to_float c },
              info := seedMetricRssi st.info (to_float c) }
  | none => st

/-- Current-entry branch for nr_snr: lines of an NR entry. -/
def cbNrSnr (st : ParseState) (e : CellEntry) (line : Str) : ParseState :=
  match searchLitRun "nr_snr:".toList numClass line with
  | some c =>
    { st with current := some { e with snr := to_float c },
              info := seedMetricSnr st.info (to_float c) }
  | none => st

/-- The branch taken when a current entry may absorb the line, falling
through to the bottom block when no entry-specific pattern applies. -/
def currentBranch (st : ParseState) (line : Str) : ParseState :=
  match st.current with
  | none => { st with info := bottomBlock st.info line }
  | some e =>
    let isLte := e.technology = "LTE".toList
    let isNr := e.technology = "NR".toList
    if startsWithS "channel:".toList line ∧ isLte then cbChannel st e line
    else if startsWithS "nr_channel:".toList line ∧ isNr then cbNrChannel st e line
    else if startsWithS "nr_pci:".toList line ∧ isNr then cbNrPci st e line
    else if startsWithS "nr_band_width:".toList line ∧ isNr then cbNrBw st e line
    else if startsWithS "lte_rsrp:".toList line ∧ isLte then cbLteRsrp st e line
    else if startsWithS "lte_rssi:".toList line ∧ isLte then cbLteRssi st e line
    else if startsWithS "nr_rsrp:".toList line ∧ isNr then cbNrRsrp st e line
    else if startsWithS "nr_rsrq:".toList line ∧ isNr then cbNrRsrq st e line
    else if startsWithS "nr_rssi:".toList line ∧ isNr then cbNrRssi st e line
    else if startsWithS "nr_snr:".toList line ∧ isNr then cbNrSnr st e line
    else
      { st with info := bottomBlock st.info line }

/-- Strip the raw line and remove a leading "output:" marker; none means
the line is skipped. -/
def preprocessLine (raw_line : Str) : Option Str :=
  let line0 := pyStrip raw_line
  if line0 = [] then none
  else if startsWithS "output:".toList (pyLower line0) then
    let line := pyStrip ((afterFirstColon line0).getD [])
    if line = [] then none else some line
  else some line0

/-- The header fields shared by the three header branches. -/
def seedBands (info : InfoAcc) (band : Option Str) : InfoAcc :=
  match band with
  | some b => if info.bands = dashS then { info with bands := b } else info
  | none => info

/-- The pending-buffer lines, the three header branches and the
current-entry fallthrough (everything after the rat and mcc/mnc
captures). -/
def dispatchRest (st : ParseState) (line : Str) : ParseState :=
  if startsWithS "lte_ant_rsrp".toList line then
    { st with
      pendingLteAntennas := parse_antennas line,
      pendingLteDiversity :=
        match searchLitRun "rx_diversity:".toList Char.isDigit line with
        | some d => some d
        | none => st.pendingLteDiversity }
  else if startsWithS "lte_tx_pwr".toList line then
    { st with pendingLteTxPower := extract_first_float line }
  else if startsWithS "nr_tx_pwr".toList line then
    { st with pendingNrTxPower := extract_first_float line }
  else if startsWithS "pcell:".toList line then
    let band := searchLitRun "lte_band:".toList Char.isDigit line
    let bw := searchLitRun "lte_band_width:".toList nonWsClass line
    { st with
      info := seedBands st.info band,
      current := some
        { technology := "LTE".toList, role := "primary".toList, ca_index := none,
          band := band, bandwidth := bw, channel := none, pci := none,
          rsrp := none, rsrq := none, rssi := none, snr := none,
          antennas := st.pendingLteAntennas,
          rx_diversity := st.pendingLteDiversity,
          tx_power := st.pendingLteTxPower },
      advanced := finalize_entry st.current st.advanced,
      pendingLteAntennas := [], pendingLteDiversity := none,
      pendingLteTxPower := none }
  else if startsWithS "scell:".toList line then
    let band := searchLitRun "lte_band:".toList Char.isDigit line
    let bw := searchLitRun "lte_band_width:".toList nonWsClass line
    { st with
      info := seedBands st.info band,
      current := some
        { technology := "LTE".toList, role := "secondary".toList,
          ca_index := some (st.scellCounter + 1),
          band := band, bandwidth := bw, channel := none, pci := none,
          rsrp := none, rsrq := none, rssi := none, snr := none,
          antennas := [], rx_diversity := none, tx_power := none },
      scellCounter := st.scellCounter + 1,
      advanced := finalize_entry st.current st.advanced }
  else if startsWithS "nr_band:".toList line then
    let band := searchLitRun "nr_band:".toList nonWsClass line
    { st with
      info := seedBands st.info band,
      current := some
        { technology := "NR".toList, role := "primary".toList, ca_index := none,
          band := band, bandwidth := none, channel := none, pci := none,
          rsrp := none, rsrq := none, rssi := none, snr := none,
          antennas := [], rx_diversity := none,
          tx_power := st.pendingNrTxPower },
      advanced := finalize_entry st.current st.advanced,
      pendingNrTxPower := none }
  else
    currentBranch st line

/-- One iteration of the parser loop. -/
def processLine (st : ParseState) (raw_line : Str) : ParseState :=
  match preprocessLine raw_line with
  | none => st
  | some line =>
    if startsWithS "rat:".toList (pyLower line) then
      { st with info := { st.info with rat := pyStrip ((afterFirstColon line).getD []) } }
    else
      match searchLitRun "mcc:".toList Char.isDigit line,
            searchLitRun "mnc:".toList Char.isDigit line with
      | some a, some b =>
        { st with info := { st.info with mccmnc := a ++ '/' :: b } }
      | _, _ =>
        dispatchRest st line

/-- The source's _build_band_display over the finalized entries. -/
def build_band_display (entries : List DetailEntry) : Str :=
  let ordered :=
    (entries.foldl
      (fun (acc : List Str × List Str) e =>
        match e.band with
        | none => acc
        | some b =>
          if b = [] then acc
          else
            let nb := pyStrip b
            let nb2 :=
              if e.technology = "NR".toList ∧ ¬ startsWithS "n".toList (pyLower nb) then
                'n' :: nb
              else nb
            if acc.1.contains nb2 then acc
            else (acc.1 ++ [nb2], acc.2 ++ [nb2]))
      ([], [])).2
  if ordered = [] then dashS else List.intercalate " + ".toList ordered

/-- The source's _build_channel_display over the finalized entries. -/
def build_channel_display (entries : List DetailEntry) : Str :=
  let channels :=
    entries.foldl
      (fun (acc : List Str) e =>
        if ¬ pyTruthyO (some e.channel) then acc
        else
          let nb : Option Str :=
            match e.band with
            | some b =>
              if e.technology = "NR".toList ∧ ¬ b = [] ∧
                 ¬ startsWithS "n".toList (pyLower b) then some ('n' :: b)
              else some b
            | none => none
          let label := pyStrip e.channel
          let label2 :=
            if pyTruthyO nb then
              label ++ " (".toList ++ (match nb with | some b => b | none => []) ++ [')']
            else label
          acc ++ [label2])
      []
  if channels = [] then dashS else List.intercalate " + ".toList channels

/-- Final assembly after the loop: finalize the open entry and derive the
band and channel display strings. -/
def finishState (st : ParseState) : DebugInfo :=
  let adv := finalize_entry st.current st.advanced
  { info := { st.info with bands := build_band_display adv,
                           channels := build_channel_display adv },
    advanced := adv }

/-- The parser on a list of raw lines (text.splitlines()). -/
def parseDebugLines (lines : List Str) : DebugInfo :=
  finishState (lines.foldl processLine initState)

/-- The source's _parse_debug_output. -/
def parse_debug_output (text : Str) : DebugInfo :=
  parseDebugLines (pySplitlines text)

/-! ### Session registry (SessionStore) and the command-executing routes

The registry dict is modelled as an association list with unique keys (a
dict invariant carried as a hypothesis where needed); the paramiko client
handle is owned by the transport oracle, so a session record keeps only
the plain fields.  The oracle maps a command string to its outcome; an
error models an exception raised by exec_command (timeout or severed
transport).  close() failures are swallowed by the source and the handle
does not appear in the model, so remove is pure.  Locks serialize
commands and do not affect the sequential semantics modelled here. -/

structure ModelSession where
  interface : Str
  host : Str
  username : Str
  port : Nat
  created_at : Rat
deriving DecidableEq, Repr

abbrev Store := List (Str × ModelSession)

/-- dict lookup (first match; keys are unique in the real dict). -/
def lookupStore : Store → Str → Option ModelSession
  | [], _ => none
  | p :: rest, t => if p.1 = t then some p.2 else lookupStore rest t

/-- SessionStore.remove: pop the token and close its handle (closing is
side-effect free in the model). -/
def removeStore : Store → Str → Store
  | [], _ => []
  | p :: rest, t => if p.1 = t then rest else p :: removeStore rest t

/-- SessionStore.cleanup(max_age_seconds): collect the tokens whose
created_at is older than now - max_age, then remove each.  time.time()
is passed explicitly as now. -/
def cleanup (store : Store) (now : Rat) (max_age_seconds : Int) : Store :=
  let cutoff := now - (max_age_seconds : Rat)
  let to_remove := (store.filter (fun p => p.2.created_at < cutoff)).map Prod.fst
  to_remove.foldl removeStore store

/-- Generic strip against a character predicate (str.strip(chars)). -/
def lstripOn (p : Char → Bool) (s : Str) : Str := s.dropWhile p
def rstripOn (p : Char → Bool) (s : Str) : Str := (s.reverse.dropWhile p).reverse
def stripOn (p : Char → Bool) (s : Str) : Str := rstripOn p (lstripOn p s)

/-- The transport oracle: outcome of _run_ros_cmd for a command string
(ok carries (stdout, stderr); error carries the exception text).  The
routes issue each command once, so a functional oracle is faithful;
per-command timeouts live inside the oracle. -/
abbrev ExecOracle := Str → Except Str (Str × Str)

inductive RouteResp where
  | badRequest : Str → RouteResp
  | notFound : Str → RouteResp
  | okOut : Str → RouteResp
  | execFailed : Str → RouteResp
deriving DecidableEq, Repr

/-- The /send route (send_command): a missing JSON key behaves exactly
like an empty string under the falsiness test, so both are modelled by
the empty string. -/
def send_command (store : Store) (token command : Str) (exec : ExecOracle) :
    Store × RouteResp :=
  let cmd := pyStrip command
  if token = [] ∨ cmd = [] then
    (store, RouteResp.badRequest "Token o comando mancante".toList)
  else
    match lookupStore store token with
    | none => (store, RouteResp.notFound "Sessione non trovata o scaduta".toList)
    | some sess =>
      match exec (build_ros_at_chat_cmd sess.interface cmd) with
      | Except.error e =>
        (removeStore store token, RouteResp.execFailed ("Comando fallito: ".toList ++ e))
      | Except.ok (out, err) =>
        let output := if ¬ err = [] then stripOn (fun c => c = '\n') (pyRstrip out ++ '\n' :: err) else out
        let output2 := if pyStrip output = [] then "(nessun output)".toList else output
        (store, RouteResp.okOut output2)

/-- The source's _run_at_command (the session lock only serializes and
has no sequential effect). -/
def run_at_command (sess : ModelSession) (at_cmd : Str) (exec : ExecOracle) :
    Except Str Str :=
  match exec (build_ros_at_chat_cmd sess.interface at_cmd) with
  | Except.error e => Except.error e
  | Except.ok (out, err) =>
    Except.ok (pyStrip (out ++ (if ¬ err = [] then '\n' :: err else [])))

structure SignalsPayload where
  info : DebugInfo
  operator : Str
  temperature : Str
  signal_assessment : Str
  raw : Str
deriving DecidableEq, Repr

inductive SignalsResp where
  | badRequest : Str → SignalsResp
  | notFound : Str → SignalsResp
  | okPayload : SignalsPayload → SignalsResp
  | execFailed : Str → SignalsResp
deriving DecidableEq, Repr

/-- The /signals route (signals): three fixed diagnostic commands, their
parses merged into one payload. -/
def signals (store : Store) (token : Str) (exec : ExecOracle) :
    Store × SignalsResp :=
  if token = [] then (store, SignalsResp.badRequest "Token mancante".toList)
  else
    match lookupStore store token with
    | none => (store, SignalsResp.notFound "Sessione non trovata o scaduta".toList)
    | some sess =>
      match run_at_command sess "ATI".toList exec with
      | Except.error e => (store, SignalsResp.execFailed ("Comandi AT falliti: ".toList ++ e))
      | Except.ok ati_text =>
        match run_at_command sess "AT^DEBUG?".toList exec with
        | Except.error e => (store, SignalsResp.execFailed ("Comandi AT falliti: ".toList ++ e))
        | Except.ok debug_text =>
          match run_at_command sess "AT^TEMP?".toList exec with
          | Except.error e => (store, SignalsResp.execFailed ("Comandi AT falliti: ".toList ++ e))
          | Except.ok temp_text =>
            let info := parse_debug_output debug_text
            let ati := parse_ati_output ati_text
            let payload : SignalsPayload :=
              { info := info,
                operator := ati.manufacturer ++
                  (if ¬ ati.model = [] then ' ' :: ati.model else []),
                temperature := parse_temp_output temp_text,
                signal_assessment := assess_signal info.info.rsrp info.info.rsrq info.info.snr,
                raw := List.intercalate "\n\n".toList
                  ["ATI\n".toList ++ ati_text, "AT^DEBUG?\n".toList ++ debug_text,
                   "AT^TEMP?\n".toList ++ temp_text] }
            (store, SignalsResp.okPayload payload)

/-! ## Theorems -/

/-- Number of positions where pat occurs as a substring. -/
def countSubstr (pat : Str) : Str → Nat
  | [] => 0
  | c :: rest => (if startsWithS pat (c :: rest) then 1 else 0) + countSubstr pat rest

theorem replaceAllF_single (c : Char) (rep : Str) :
    ∀ (fuel : Nat) (s : Str), s.length ≤ fuel →
      replaceAllF [c] rep fuel s = s.flatMap (fun x => if x = c then rep else [x]) := by
  intro fuel
  induction fuel with
  | zero =>
    intro s hs
    have hnil : s = [] := List.eq_nil_of_length_eq_zero (Nat.le_zero.mp hs)
    subst hnil
    rfl
  | succ n ih =>
    intro s hs
    cases s with
    | nil => rfl
    | cons x rest =>
      have hr : rest.length ≤ n := by
        simp only [List.length_cons] at hs
        omega
      by_cases hx : x = c
      · subst hx
        simp [replaceAllF, startsWithS, List.isPrefixOf, ih rest hr]
      · simp [replaceAllF, startsWithS, List.isPrefixOf, hx, Ne.symm hx, ih rest hr]

/-- A single-character replace is a pointwise expansion. -/
theorem replaceAll_single (c : Char) (rep : Str) (s : Str) :
    replaceAll [c] rep s = s.flatMap (fun x => if x = c then rep else [x]) :=
  replaceAllF_single c rep s.length s (Nat.le_refl _)

theorem mem_cleanAtCmd_not_cr_nl (at_cmd : Str) :
    ∀ x ∈ cleanAtCmd at_cmd, ¬ x = '\r' ∧ ¬ x = '\n' := by
  have step : ∀ (c : Char) (rep s : Str) (P : Char → Prop),
      (∀ y ∈ rep, P y) → (∀ y ∈ s, y ≠ c → P y) →
      ∀ y ∈ replaceAll [c] rep s, P y := by
    intro c rep s P hrep hs y hy
    rw [replaceAll_single] at hy
    simp only [List.mem_flatMap] at hy
    rcases hy with ⟨e, he, hye⟩
    by_cases hc : e = c
    · simp only [hc, if_pos rfl] at hye
      exact hrep y hye
    · simp only [if_neg hc, List.mem_singleton] at hye
      subst hye
      exact hs y he hc
  have h2 : ∀ y ∈ replaceAll ['\r'] [] (pyStrip at_cmd), ¬ y = '\r' := by
    apply step
    · intro y hy
      simp at hy
    · intro y _ hy
      exact hy
  have h3 : ∀ y ∈ replaceAll ['\n'] [' '] (replaceAll ['\r'] [] (pyStrip at_cmd)),
      ¬ y = '\r' ∧ ¬ y = '\n' := by
    apply step
    · intro y hy
      simp only [List.mem_singleton] at hy
      subst hy
      exact ⟨by decide, by decide⟩
    · intro y hmem hne
      exact ⟨h2 y hmem, hne⟩
  have h4 : ∀ y ∈ replaceAll ['\\'] ['\\', '\\']
      (replaceAll ['\n'] [' '] (replaceAll ['\r'] [] (pyStrip at_cmd))),
      ¬ y = '\r' ∧ ¬ y = '\n' := by
    apply step
    · intro y hy
      simp only [List.mem_cons, List.not_mem_nil, or_false] at hy
      rcases hy with h | h <;> (subst h; exact ⟨by decide, by decide⟩)
    · intro y hmem _
      exact h3 y hmem
  have h5 : ∀ y ∈ replaceAll ['"'] ['\\', '"'] (replaceAll ['\\'] ['\\', '\\']
      (replaceAll ['\n'] [' '] (replaceAll ['\r'] [] (pyStrip at_cmd)))),
      ¬ y = '\r' ∧ ¬ y = '\n' := by
    apply step
    · intro y hy
      simp only [List.mem_cons, List.not_mem_nil, or_false] at hy
      rcases hy with h | h <;> (subst h; exact ⟨by decide, by decide⟩)
    · intro y hmem _
      exact h4 y hmem
  exact h5

/-- C5: for every interface name and AT command, the wrapper strips
carriage returns, maps each embedded newline to a space, escapes
backslashes and double quotes in the AT command, and wraps the result in
the fixed at-chat template naming the interface; for interface lte1 and
an AT command with an embedded double quote the produced string has the
quote escaped and the interface name appearing unescaped exactly once. -/
theorem build_cmd_escapes_and_wraps (interface at_cmd : Str) :
    build_ros_at_chat_cmd interface at_cmd =
      "/interface lte at-chat ".toList ++ interface ++ " input=\"".toList ++
        cleanAtCmd at_cmd ++ ['"'] ∧
    cleanAtCmd at_cmd =
      replaceAll ['"'] ['\\', '"'] (replaceAll ['\\'] ['\\', '\\']
        (replaceAll ['\n'] [' '] (replaceAll ['\r'] [] (pyStrip at_cmd)))) ∧
    (∀ x ∈ cleanAtCmd at_cmd, ¬ x = '\r' ∧ ¬ x = '\n') ∧
    build_ros_at_chat_cmd "lte1".toList "AT^TEST=\"x\"".toList =
      "/interface lte at-chat lte1 input=\"AT^TEST=\\\"x\\\"\"".toList ∧
    countSubstr "lte1".toList (build_ros_at_chat_cmd "lte1".toList "AT^TEST=\"x\"".toList) = 1 :=
  ⟨rfl, rfl, mem_cleanAtCmd_not_cr_nl at_cmd, by decide, by decide⟩

/-- C9: the interface name is embedded into the vendor invocation
completely verbatim (the template concatenates it unchanged between two
fixed literals, while only the AT command goes through the cleaning and
escaping pipeline); whitespace, quotes, backslashes and shell
metacharacters in the interface pass through, as the concrete example
shows. -/
theorem build_cmd_interface_verbatim (interface at_cmd : Str) :
    build_ros_at_chat_cmd interface at_cmd =
      "/interface lte at-chat ".toList ++ interface ++ " input=\"".toList ++
        cleanAtCmd at_cmd ++ ['"'] ∧
    build_ros_at_chat_cmd "x \"y\\; $(z)".toList "AT".toList =
      "/interface lte at-chat x \"y\\; $(z) input=\"AT\"".toList :=
  ⟨rfl, by decide⟩

/-- C7: the three-line pcell example parses to exactly one finalized LTE
primary entry with band 3, bandwidth 20MHz, channel 1300, PCI 55,
rounded RSRP -95.0 and RSRQ -10.0 (the primary role is rendered in the
title of the display record, which carries no separate role field), and
the derived top-level band display is "3". -/
theorem pcell_example_parse :
    (parse_debug_output
      "pcell: lte_band:3 lte_band_width:20MHz\nchannel:1300 pci:55\nlte_rsrp:-95 rsrq:-10".toList).advanced =
      [{ title := "Primary 4G (Band 3)".toList, technology := "LTE".toList,
         band := some "3".toList, band_display := "Band 3".toList,
         bandwidth := "20MHz".toList, channel := "1300".toList, pci := "55".toList,
         rx_diversity := [], tx_power := [],
         metrics :=
           [{ key := "rsrq".toList, label := "RSRQ".toList, value := some (-10),
              display := "-10.0 dB".toList },
            { key := "rsrp".toList, label := "RSRP".toList, value := some (-95),
              display := "-95.0 dBm".toList },
            { key := "rssi".toList, label := "RSSI".toList, value := none,
              display := "N/A".toList },
            { key := "snr".toList, label := "SINR".toList, value := none,
              display := "N/A".toList }],
         antennas := [] }] ∧
    (parse_debug_output
      "pcell: lte_band:3 lte_band_width:20MHz\nchannel:1300 pci:55\nlte_rsrp:-95 rsrq:-10".toList).info.bands =
      "3".toList := by
  constructor <;> decide

/-! ### Registry sweep (C6) -/

theorem lookupStore_remove_ne (store : Store) (t t' : Str) (h : ¬ t = t') :
    lookupStore (removeStore store t') t = lookupStore store t := by
  induction store with
  | nil => rfl
  | cons p rest ih =>
    by_cases hp : p.1 = t'
    · simp only [removeStore, if_pos hp, lookupStore]
      rw [if_neg]
      intro he
      exact h (he ▸ hp)
    · simp only [removeStore, if_neg hp, lookupStore]
      by_cases hq : p.1 = t
      · rw [if_pos hq, if_pos hq]
      · rw [if_neg hq, if_neg hq, ih]

theorem lookupStore_eq_none_of_not_mem (store : Store) (t : Str)
    (h : t ∉ store.map Prod.fst) : lookupStore store t = none := by
  induction store with
  | nil => rfl
  | cons p rest ih =>
    simp only [List.map_cons, List.mem_cons] at h
    push_neg at h
    have hne : ¬ p.1 = t := fun he => h.1 he.symm
    simp only [lookupStore, if_neg hne]
    exact ih h.2

theorem lookupStore_remove_self (store : Store) (t : Str)
    (h : (store.map Prod.fst).Nodup) :
    lookupStore (removeStore store t) t = none := by
  induction store with
  | nil => rfl
  | cons p rest ih =>
    simp only [List.map_cons, List.nodup_cons] at h
    by_cases hp : p.1 = t
    · simp only [removeStore, if_pos hp]
      exact lookupStore_eq_none_of_not_mem rest t (hp ▸ h.1)
    · simp only [removeStore, if_neg hp, lookupStore, if_neg hp]
      exact ih h.2

theorem lookupStore_remove_none (store : Store) (t t' : Str)
    (h : lookupStore store t = none) :
    lookupStore (removeStore store t') t = none := by
  induction store with
  | nil => rfl
  | cons p rest ih =>
    simp only [lookupStore] at h
    by_cases hq : p.1 = t
    · rw [if_pos hq] at h
      exact absurd h (by simp)
    · rw [if_neg hq] at h
      by_cases hp : p.1 = t'
      · simp only [removeStore, if_pos hp]
        exact h
      · simp only [removeStore, if_neg hp, lookupStore, if_neg hq]
        exact ih h

theorem removeStore_sublist (store : Store) (t : Str) :
    List.Sublist (removeStore store t) store := by
  induction store with
  | nil => simp [removeStore]
  | cons p rest ih =>
    by_cases hp : p.1 = t
    · simp only [removeStore, if_pos hp]
      exact List.sublist_cons_self p rest
    · simp only [removeStore, if_neg hp]
      exact List.Sublist.cons₂ p ih

theorem nodup_keys_remove (store : Store) (t : Str)
    (h : (store.map Prod.fst).Nodup) :
    ((removeStore store t).map Prod.fst).Nodup :=
  ((removeStore_sublist store t).map Prod.fst).nodup h

theorem lookupStore_foldl_remove (rem : List Str) (store : Store) (token : Str)
    (h : (store.map Prod.fst).Nodup) :
    lookupStore (rem.foldl removeStore store) token =
      if token ∈ rem then none else lookupStore store token := by
  induction rem generalizing store with
  | nil => simp
  | cons r rs ih =>
    simp only [List.foldl_cons, List.mem_cons]
    by_cases hr : token = r
    · subst hr
      rw [if_pos (Or.inl rfl)]
      have hnone : lookupStore (removeStore store token) token = none :=
        lookupStore_remove_self store token h
      rw [ih (removeStore store token) (nodup_keys_remove store token h)]
      by_cases hm : token ∈ rs
      · rw [if_pos hm]
      · rw [if_neg hm]
        exact hnone
    · rw [ih (removeStore store r) (nodup_keys_remove store r h)]
      by_cases hm : token ∈ rs
      · rw [if_pos hm, if_pos (Or.inr hm)]
      · rw [if_neg hm, if_neg (by rintro (he | he) <;> [exact hr he; exact hm he])]
        exact lookupStore_remove_ne store token r hr

theorem lookupStore_mem (store : Store) (t : Str) (s : ModelSession)
    (h : lookupStore store t = some s) : (t, s) ∈ store := by
  induction store with
  | nil => simp [lookupStore] at h
  | cons p rest ih =>
    simp only [lookupStore] at h
    by_cases hq : p.1 = t
    · rw [if_pos hq] at h
      obtain ⟨a, b⟩ := p
      have ha : a = t := hq
      have hb : b = s := by injection h
      subst ha
      subst hb
      exact List.mem_cons_self _ _
    · rw [if_neg hq] at h
      exact List.mem_cons_of_mem p (ih h)

theorem mem_lookupStore (store : Store) (t : Str) (s : ModelSession)
    (hnd : (store.map Prod.fst).Nodup) (h : (t, s) ∈ store) :
    lookupStore store t = some s := by
  induction store with
  | nil => simp at h
  | cons p rest ih =>
    simp only [List.map_cons, List.nodup_cons] at hnd
    rcases List.mem_cons.mp h with he | hm
    · subst he
      simp [lookupStore]
    · have hne : ¬ p.1 = t := by
        intro he
        apply hnd.1
        rw [he]
        exact List.mem_map_of_mem Prod.fst hm
      simp only [lookupStore, if_neg hne]
      exact ih hnd.2 hm

/-- C6: for every registry state with its dict invariant (unique tokens),
every clock value and every max_age, the sweep removes exactly the
sessions with now - created_at strictly greater than max_age and leaves
every other session untouched; in particular a session aged exactly
max_age is kept. -/
theorem cleanup_removes_exactly (store : Store) (now : Rat) (max_age : Int)
    (token : Str) (h : (store.map Prod.fst).Nodup) :
    lookupStore (cleanup store now max_age) token =
      match lookupStore store token with
      | some s => if (max_age : Rat) < now - s.created_at then none else some s
      | none => none := by
  unfold cleanup
  rw [lookupStore_foldl_remove _ store token h]
  split_ifs with hmem
  · cases hl : lookupStore store token with
    | none => rfl
    | some s =>
      simp only [List.mem_map, List.mem_filter] at hmem
      rcases hmem with ⟨p, ⟨hp, hpred⟩, hfst⟩
      have heq : lookupStore store token = some p.2 :=
        mem_lookupStore store token p.2 h (by rw [← hfst]; exact hp)
      rw [hl] at heq
      have hps : s = p.2 := by injection heq
      rw [← hps] at hpred
      have hpredP : s.created_at < now - (max_age : Rat) := by simpa using hpred
      have hgt : (max_age : Rat) < now - s.created_at := by linarith
      simp [hgt]
  · cases hl : lookupStore store token with
    | none => rfl
    | some s =>
      have hpredP : ¬ s.created_at < now - (max_age : Rat) := by
        intro hc
        apply hmem
        simp only [List.mem_map, List.mem_filter]
        exact ⟨(token, s), ⟨lookupStore_mem store token s hl, by simpa using hc⟩, rfl⟩
      have hng : ¬ (max_age : Rat) < now - s.created_at := fun hc => hpredP (by linarith)
      simp [hng]

def demoSessKept : ModelSession :=
  { interface := "lte1".toList, host := "h".toList, username := "u".toList,
    port := 22, created_at := 70 }

def demoSessOld : ModelSession :=
  { interface := "lte1".toList, host := "h".toList, username := "u".toList,
    port := 22, created_at := 69 }

def demoStore : Store := [("a".toList, demoSessKept), ("b".toList, demoSessOld)]

theorem cleanup_removes_exactly_witness :
    lookupStore (cleanup demoStore 100 30) "a".toList = some demoSessKept ∧
    lookupStore (cleanup demoStore 100 30) "b".toList = none := by
  constructor
  · rw [cleanup_removes_exactly demoStore 100 30 "a".toList (by decide)]
    decide
  · rw [cleanup_removes_exactly demoStore 100 30 "b".toList (by decide)]
    decide

/-! ### Temperature parser (C10) -/

/-- C10: the temperature parser is a total function (so it never raises);
it returns "-" exactly when none of the three sensor labels TSENS, PA,
Skin Sensor is followed (case-insensitively, with optional whitespace) by
a signed integer reading terminated by C; otherwise it returns the
arithmetic mean of exactly the readings present, rendered at one decimal
inside the fixed Media text. -/
theorem parse_temp_mean_iff (text : Str) :
    (parse_temp_output text = dashS ↔
      (searchTemp "TSENS".toList text = none ∧ searchTemp "PA".toList text = none ∧
       searchTemp "Skin Sensor".toList text = none)) ∧
    (¬ tempReadings text = [] →
      parse_temp_output text =
        "Media ".toList ++
          fmt1f ((((tempReadings text).foldl (· + ·) 0 : Int) : Rat) /
            ((tempReadings text).length : Rat)) ++ "¬∞C".toList) := by
  have hreadings : tempReadings text = [] ↔
      (searchTemp "TSENS".toList text = none ∧ searchTemp "PA".toList text = none ∧
       searchTemp "Skin Sensor".toList text = none) := by
    unfold tempReadings tempLabels
    cases h1 : searchTemp "TSENS".toList text <;>
      cases h2 : searchTemp "PA".toList text <;>
        cases h3 : searchTemp "Skin Sensor".toList text <;>
          simp only [List.filterMap_cons, List.filterMap_nil, h1, h2, h3] <;>
            simp
  constructor
  · rw [← hreadings]
    unfold parse_temp_output
    by_cases hr : tempReadings text = []
    · simp [hr, dashS]
    · rw [if_neg hr]
      constructor
      · intro hcontra
        exact absurd (List.cons.injEq .. ▸ hcontra) (by simp [dashS])
      · intro hcontra
        exact absurd hcontra hr
  · intro hr
    unfold parse_temp_output
    rw [if_neg hr]

theorem parse_temp_mean_iff_witness :
    parse_temp_output "TSENS: 30C PA: 41C".toList =
      "Media ".toList ++ fmt1f ((71 : Rat) / 2) ++ "¬∞C".toList ∧
    parse_temp_output "no sensors here".toList = dashS := by
  constructor
  · have h := (parse_temp_mean_iff "TSENS: 30C PA: 41C".toList).2 (by decide)
    rw [h]
    decide
  · exact (parse_temp_mean_iff "no sensors here".toList).1.mpr (by decide)

/-! ### Failure-path session removal (C3) -/

def cxSess : ModelSession :=
  { interface := "lte1".toList, host := "h".toList, username := "u".toList,
    port := 22, created_at := 0 }

def cxStore : Store := [("t".toList, cxSess)]

def failOracle : ExecOracle := fun _ => Except.error "boom".toList

/-- C3 counterexample: with one registered session and a transport that
fails every command, the snapshot route reports the failure but leaves
the session registered (its token still resolves), contradicting the
claim that every command-executing operation removes the session on a
mid-command failure. -/
theorem signals_no_removal_on_failure_cx :
    (signals cxStore "t".toList failOracle).1 = cxStore ∧
    lookupStore (signals cxStore "t".toList failOracle).1 "t".toList = some cxSess ∧
    (signals cxStore "t".toList failOracle).2 =
      SignalsResp.execFailed "Comandi AT falliti: boom".toList := by
  refine ⟨by decide, by decide, by decide⟩

/-- C3 amended: when a command execution fails mid-command, only the
run_command route removes the session as a side effect; the snapshot
route returns the failure and leaves the registry unchanged, so its
caller can retry against the same handle. -/
theorem exec_failure_removes_only_in_send (store : Store) (token cmd e e2 : Str)
    (sess : ModelSession) (exec : ExecOracle)
    (hnd : (store.map Prod.fst).Nodup)
    (htok : ¬ token = [])
    (hlook : lookupStore store token = some sess)
    (hcmd : ¬ pyStrip cmd = [])
    (hsend : exec (build_ros_at_chat_cmd sess.interface (pyStrip cmd)) = Except.error e)
    (hati : exec (build_ros_at_chat_cmd sess.interface "ATI".toList) = Except.error e2) :
    lookupStore (send_command store token cmd exec).1 token = none ∧
    (send_command store token cmd exec).2 =
      RouteResp.execFailed ("Comando fallito: ".toList ++ e) ∧
    (signals store token exec).1 = store ∧
    (signals store token exec).2 =
      SignalsResp.execFailed ("Comandi AT falliti: ".toList ++ e2) := by
  have hsend_eval : send_command store token cmd exec =
      (removeStore store token, RouteResp.execFailed ("Comando fallito: ".toList ++ e)) := by
    unfold send_command
    rw [if_neg (by rintro (hc | hc) <;> [exact htok hc; exact hcmd hc])]
    simp only [hlook, hsend]
  have hsignals_eval : signals store token exec =
      (store, SignalsResp.execFailed ("Comandi AT falliti: ".toList ++ e2)) := by
    unfold signals
    rw [if_neg htok]
    unfold run_at_command
    simp only [hlook, hati]
  refine ⟨?_, ?_, ?_, ?_⟩
  · rw [hsend_eval]
    exact lookupStore_remove_self store token hnd
  · rw [hsend_eval]
  · rw [hsignals_eval]
  · rw [hsignals_eval]

theorem exec_failure_removes_only_in_send_witness :
    lookupStore (send_command cxStore "t".toList "ATI".toList failOracle).1 "t".toList = none ∧
    (signals cxStore "t".toList failOracle).1 = cxStore := by
  have h := exec_failure_removes_only_in_send cxStore "t".toList "ATI".toList
    "boom".toList "boom".toList cxSess failOracle
    (by decide) (by decide) (by decide) (by decide) rfl rfl
  exact ⟨h.1, h.2.2.1⟩

/-! ### Signal quality assessor (C2) -/

/-- The classifier exactly as the claim states it (for the
counterexample): same parsing of the display strings, but the good rule
fires when RSRP ≥ -105 and RSRQ is greater or equal to -14 OR ABSENT,
with the labels of the source. -/
def assess_c2_claimed (rsrp rsrq snr : Str) : Str :=
  match parseUnitVal rsrp "dBm".toList, parseUnitVal rsrq "dB".toList,
        parseUnitVal snr "dB".toList with
  | Except.ok rsrp_val, Except.ok rsrq_val, Except.ok snr_val =>
    match rsrp_val with
    | none => "-".toList
    | some rv =>
      let sinrOk : Bool := match snr_val with | none => false | some v => pyGeF v 10
      let rsrqOk : Bool := match rsrq_val with | none => true | some v => pyGeF v (-14)
      if pyGeF rv (-90) && sinrOk then "Ottimo".toList
      else if pyGeF rv (-105) && rsrqOk then "Buono".toList
      else if pyGeF rv (-115) then "Discreto".toList
      else "Debole".toList
  | _, _, _ => "-".toList

/-- C2 counterexample: at RSRP -100dBm with RSRQ and SINR absent, the
claim's rules yield the good label, but the source substitutes -40 for
an absent RSRQ, fails the good test and yields the fair label. -/
theorem assess_rsrq_absent_cx :
    assess_signal "-100dBm".toList "-".toList "-".toList = "Discreto".toList ∧
    assess_c2_claimed "-100dBm".toList "-".toList "-".toList = "Buono".toList ∧
    ¬ "Discreto".toList = "Buono".toList := by
  refine ⟨by decide, by decide, by decide⟩

/-- The classifier as amended: a display string without its trailing
suffix parses as absent; a string with the suffix whose remainder float()
rejects makes the whole assessment unknown; RSRP absent is unknown;
otherwise, substituting 0 for an absent-or-zero SINR and -40 for an
absent-or-zero RSRQ, the ordered rules are: RSRP ≥ -90 and substituted
SINR ≥ 10 → excellent; RSRP ≥ -105 and substituted RSRQ ≥ -14 → good
(hence an absent RSRQ is never good); RSRP ≥ -115 → fair; else weak. -/
def assess_c2_amended (rsrp rsrq snr : Str) : Str :=
  match parseUnitVal rsrp "dBm".toList, parseUnitVal rsrq "dB".toList,
        parseUnitVal snr "dB".toList with
  | Except.error _, _, _ => "-".toList
  | Except.ok _, Except.error _, _ => "-".toList
  | Except.ok _, Except.ok _, Except.error _ => "-".toList
  | Except.ok rsrp_val, Except.ok rsrq_val, Except.ok snr_val =>
    match rsrp_val with
    | none => "-".toList
    | some rv =>
      let sinrEff : PyF :=
        match snr_val with
        | none => PyF.val 0
        | some v => if pyTruthyF v then v else PyF.val 0
      let rsrqEff : PyF :=
        match rsrq_val with
        | none => PyF.val (-40)
        | some v => if pyTruthyF v then v else PyF.val (-40)
      if pyGeF rv (-90) ∧ pyGeF sinrEff 10 then "Ottimo".toList
      else if pyGeF rv (-105) ∧ pyGeF rsrqEff (-14) then "Buono".toList
      else if pyGeF rv (-115) then "Discreto".toList
      else "Debole".toList

/-- C2 amended: for every triple of display strings the source assessor
agrees with the amended rule list. -/
theorem assess_amended_equiv (rsrp rsrq snr : Str) :
    assess_signal rsrp rsrq snr = assess_c2_amended rsrp rsrq snr := by
  unfold assess_signal assess_c2_amended pyOrF
  cases hr : parseUnitVal rsrp "dBm".toList <;>
    cases hq : parseUnitVal rsrq "dB".toList <;>
      cases hs : parseUnitVal snr "dB".toList <;>
        rfl

/-! ### Pending antenna/diversity/tx-power buffers (C4) -/

/-- C4 counterexample: an antenna line, a diversity capture and a
tx-power line precede a secondary (carrier-aggregation) header, yet the
entry opened by that header carries none of them; the buffers are also
not cleared and are consumed by the pcell header that follows. -/
theorem scell_ignores_pending_cx :
    ((parse_debug_output
        "lte_ant_rsrp (-90.5, -101) rx_diversity:2\nlte_tx_pwr:20\nscell:\npcell:".toList).advanced.map
      (fun d => (d.title, d.antennas.length, d.rx_diversity, d.tx_power))) =
      [("CA 4G #1".toList, 0, [], []),
       ("Primary 4G".toList, 2, "2".toList, "20.0 dBm".toList)] ∧
    ¬ (0 : Nat) = 2 := by
  refine ⟨by decide, by decide⟩

/-- C4 amended: buffered antenna/diversity/tx-power lines are attached
to header-opened entries as follows, for every parser state: a primary
LTE header (pcell) consumes the pending LTE antenna, diversity and
tx-power buffers and clears them; a secondary LTE header (scell) opens
its entry with empty antennas and absent diversity/tx-power and leaves
every pending buffer untouched; an NR header consumes and clears the
pending NR tx-power buffer; and the antenna/tx-power lines themselves
set the corresponding pending buffers. -/
theorem header_pending_consumption (st : ParseState) :
    (processLine st "pcell:".toList).current = some
      { technology := "LTE".toList, role := "primary".toList, ca_index := none,
        band := none, bandwidth := none, channel := none, pci := none,
        rsrp := none, rsrq := none, rssi := none, snr := none,
        antennas := st.pendingLteAntennas, rx_diversity := st.pendingLteDiversity,
        tx_power := st.pendingLteTxPower } ∧
    (processLine st "pcell:".toList).pendingLteAntennas = [] ∧
    (processLine st "pcell:".toList).pendingLteDiversity = none ∧
    (processLine st "pcell:".toList).pendingLteTxPower = none ∧
    (processLine st "pcell:".toList).pendingNrTxPower = st.pendingNrTxPower ∧
    (processLine st "scell:".toList).current = some
      { technology := "LTE".toList, role := "secondary".toList,
        ca_index := some (st.scellCounter + 1), band := none, bandwidth := none,
        channel := none, pci := none, rsrp := none, rsrq := none, rssi := none,
        snr := none, antennas := [], rx_diversity := none, tx_power := none } ∧
    (processLine st "scell:".toList).pendingLteAntennas = st.pendingLteAntennas ∧
    (processLine st "scell:".toList).pendingLteDiversity = st.pendingLteDiversity ∧
    (processLine st "scell:".toList).pendingLteTxPower = st.pendingLteTxPower ∧
    (processLine st "scell:".toList).pendingNrTxPower = st.pendingNrTxPower ∧
    (processLine st "nr_band:78".toList).current = some
      { technology := "NR".toList, role := "primary".toList, ca_index := none,
        band := some "78".toList, bandwidth := none, channel := none, pci := none,
        rsrp := none, rsrq := none, rssi := none, snr := none,
        antennas := [], rx_diversity := none, tx_power := st.pendingNrTxPower } ∧
    (processLine st "nr_band:78".toList).pendingNrTxPower = none ∧
    (processLine st "nr_band:78".toList).pendingLteAntennas = st.pendingLteAntennas ∧
    (processLine st "nr_band:78".toList).pendingLteDiversity = st.pendingLteDiversity ∧
    (processLine st "nr_band:78".toList).pendingLteTxPower = st.pendingLteTxPower ∧
    (processLine st "lte_tx_pwr:20".toList).pendingLteTxPower = some 20 ∧
    (processLine st "nr_tx_pwr:21.5".toList).pendingNrTxPower = some (43 / 2) ∧
    (processLine st "lte_ant_rsrp (-90.5, -101)".toList).pendingLteAntennas =
      [{ label := "Antenna 1".toList, value := some (-181 / 2),
         display := "-90.5 dBm".toList },
       { label := "Antenna 2".toList, value := some (-101),
         display := "-101.0 dBm".toList }] := by
  refine ⟨rfl, rfl, rfl, rfl, rfl, rfl, rfl, rfl, rfl, rfl, rfl, rfl, rfl, rfl, rfl,
    ?_, ?_, ?_⟩
  · have h : (processLine st "lte_tx_pwr:20".toList).pendingLteTxPower =
        extract_first_float "lte_tx_pwr:20".toList := rfl
    rw [h]
    decide
  · have h : (processLine st "nr_tx_pwr:21.5".toList).pendingNrTxPower =
        extract_first_float "nr_tx_pwr:21.5".toList := rfl
    rw [h]
    decide
  · have h : (processLine st "lte_ant_rsrp (-90.5, -101)".toList).pendingLteAntennas =
        parse_antennas "lte_ant_rsrp (-90.5, -101)".toList := rfl
    rw [h]
    decide

theorem header_pending_consumption_witness :
    (processLine initState "pcell:".toList).current = some
      { technology := "LTE".toList, role := "primary".toList, ca_index := none,
        band := none, bandwidth := none, channel := none, pci := none,
        rsrp := none, rsrq := none, rssi := none, snr := none,
        antennas := initState.pendingLteAntennas,
        rx_diversity := initState.pendingLteDiversity,
        tx_power := initState.pendingLteTxPower } :=
  (header_pending_consumption initState).1

/-! ### Top-level field capture policy (C1) -/

/-- C1 counterexample: the four fields the claim lists (rat, mcc/mnc,
tac, cell id) are overwritten by later matching lines; with two rat
lines the snapshot holds the second value, not the first as
first-occurrence-wins would require, and likewise for the others. -/
theorem top_fields_first_wins_cx :
    (parse_debug_output "rat:4G\nrat:5G".toList).info.rat = "5G".toList ∧
    ¬ (parse_debug_output "rat:4G\nrat:5G".toList).info.rat = "4G".toList ∧
    (parse_debug_output "mcc:222 mnc:88\nmcc:001 mnc:01".toList).info.mccmnc =
      "001/01".toList ∧
    (parse_debug_output "lte_cell_id:1\nnr_cell_id:2".toList).info.cell_id =
      "2".toList ∧
    (parse_debug_output "lte_tac:5\nlte_tac:6".toList).info.tac = "6".toList := by
  refine ⟨by decide, by decide, by decide, by decide, by decide⟩

/-- C1 amended: the four top-level identity fields (radio access
technology name, MCC/MNC pair, cell id, tracking area code) are captured
under last-occurrence-wins: a line matching the key overwrites the field
no matter what any earlier lines put there, shown here for an arbitrary
prefix of prior lines.  (First-occurrence-wins governs the separate
first-seen band/channel/pci and metric display fields instead.) -/
theorem top_fields_last_wins (ls : List Str) :
    (parseDebugLines (ls ++ ["rat:5G".toList])).info.rat = "5G".toList ∧
    (parseDebugLines (ls ++ ["mcc:001 mnc:01".toList])).info.mccmnc = "001/01".toList ∧
    (parseDebugLines (ls ++ ["lte_cell_id:123".toList])).info.cell_id = "123".toList ∧
    (parseDebugLines (ls ++ ["nr_tac:77".toList])).info.tac = "77".toList := by
  have hfold : ∀ l : Str, parseDebugLines (ls ++ [l]) =
      finishState (processLine (ls.foldl processLine initState) l) := by
    intro l
    unfold parseDebugLines
    rw [List.foldl_append]
    rfl
  rw [hfold, hfold, hfold, hfold]
  obtain ⟨i, cur, sc, adv, pa, pd, pt, pn⟩ := ls.foldl processLine initState
  refine ⟨rfl, rfl, ?_, ?_⟩
  · cases cur <;> rfl
  · cases cur <;> rfl

/-! ### Lossy numeric parsing (C8): absent values show as "-" -/

/-- The invariant tying each top-level metric display to its numeric
shadow: the display is "-" exactly when the value is absent. -/
def infoCoherent (i : InfoAcc) : Prop :=
  (i.rsrp = dashS ↔ i.rsrp_value = none) ∧
  (i.rsrq = dashS ↔ i.rsrq_value = none) ∧
  (i.snr = dashS ↔ i.snr_value = none) ∧
  (i.rssi = dashS ↔ i.rssi_value = none)

theorem display_ne_dash (a : Str) (c : Char) (r : Str) (hc : ¬ c = '-') :
    ¬ a ++ c :: r = dashS := by
  cases a with
  | nil =>
    intro hx
    exact hc (List.head_eq_of_cons_eq hx)
  | cons x t =>
    intro hx
    have := List.tail_eq_of_cons_eq hx
    exact absurd this (by simp)

theorem setInfoMetric_coherent (cur : Str × Option Rat) (v : Option Rat) (unit : Str)
    (hu : ∃ r, unit = 'd' :: r) (h : cur.1 = dashS ↔ cur.2 = none) :
    (setInfoMetric cur v unit).1 = dashS ↔ (setInfoMetric cur v unit).2 = none := by
  obtain ⟨r, hr⟩ := hu
  subst hr
  unfold setInfoMetric
  by_cases hd : cur.1 = dashS
  · rw [if_pos hd]
    cases v with
    | none => simp
    | some q =>
      constructor
      · intro hx
        exact absurd hx (display_ne_dash _ _ _ (by decide))
      · intro hx
        exact absurd hx (by simp)
  · rw [if_neg hd]
    exact h

theorem bbCell_coherent (line : Str) (i : InfoAcc) (h : infoCoherent i) :
    infoCoherent (bbCell line i) := by
  unfold bbCell
  cases searchAltRun ["lte_cell_id:".toList, "nr_cell_id:".toList] Char.isDigit line <;>
    simpa [infoCoherent] using h

theorem bbTac_coherent (line : Str) (i : InfoAcc) (h : infoCoherent i) :
    infoCoherent (bbTac line i) := by
  unfold bbTac
  cases searchAltRun ["lte_tac:".toList, "nr_tac:".toList] Char.isDigit line <;>
    simpa [infoCoherent] using h

theorem bbChannel_coherent (line : Str) (i : InfoAcc) (h : infoCoherent i) :
    infoCoherent (bbChannel line i) := by
  unfold bbChannel
  cases searchLitRun "channel:".toList Char.isDigit line with
  | none => exact h
  | some v =>
    by_cases hc : i.channel = dashS <;> simp only [if_pos, if_neg, hc] <;>
      simpa [infoCoherent] using h

theorem bbPci_coherent (line : Str) (i : InfoAcc) (h : infoCoherent i) :
    infoCoherent (bbPci line i) := by
  unfold bbPci
  cases searchLitRun "pci:".toList Char.isDigit line with
  | none => exact h
  | some v =>
    by_cases hc : i.pci = dashS <;> simp only [if_pos, if_neg, hc] <;>
      simpa [infoCoherent] using h

theorem bbBands_coherent (line : Str) (i : InfoAcc) (h : infoCoherent i) :
    infoCoherent (bbBands line i) := by
  unfold bbBands
  cases searchAltRun ["lte_band:".toList, "nr_band:".toList] wordBandClass line <;>
    simpa [infoCoherent] using h

theorem seedMetricRsrp_coherent (i : InfoAcc) (v : Option Rat) (h : infoCoherent i) :
    infoCoherent (seedMetricRsrp i v) :=
  ⟨setInfoMetric_coherent _ _ _ ⟨"Bm".toList, rfl⟩ h.1, h.2.1, h.2.2.1, h.2.2.2⟩

theorem seedMetricRsrq_coherent (i : InfoAcc) (v : Option Rat) (h : infoCoherent i) :
    infoCoherent (seedMetricRsrq i v) :=
  ⟨h.1, setInfoMetric_coherent _ _ _ ⟨"B".toList, rfl⟩ h.2.1, h.2.2.1, h.2.2.2⟩

theorem seedMetricSnr_coherent (i : InfoAcc) (v : Option Rat) (h : infoCoherent i) :
    infoCoherent (seedMetricSnr i v) :=
  ⟨h.1, h.2.1, setInfoMetric_coherent _ _ _ ⟨"B".toList, rfl⟩ h.2.2.1, h.2.2.2⟩

theorem seedMetricRssi_coherent (i : InfoAcc) (v : Option Rat) (h : infoCoherent i) :
    infoCoherent (seedMetricRssi i v) :=
  ⟨h.1, h.2.1, h.2.2.1, setInfoMetric_coherent _ _ _ ⟨"Bm".toList, rfl⟩ h.2.2.2⟩

theorem bbRsrp_coherent (line : Str) (i : InfoAcc) (h : infoCoherent i) :
    infoCoherent (bbRsrp line i) := by
  unfold bbRsrp
  cases searchAltWsRun ["lte_rsrp:".toList, "nr_rsrp:".toList] numClass line with
  | none => exact h
  | some cap => exact seedMetricRsrp_coherent _ _ h

theorem bbRsrq_coherent (line : Str) (i : InfoAcc) (h : infoCoherent i) :
    infoCoherent (bbRsrq line i) := by
  unfold bbRsrq
  cases searchAltWsRun ["rsrq:".toList, "nr_rsrq:".toList] numClass line with
  | none => exact h
  | some cap => exact seedMetricRsrq_coherent _ _ h

theorem bbSnr_coherent (line : Str) (i : InfoAcc) (h : infoCoherent i) :
    infoCoherent (bbSnr line i) := by
  unfold bbSnr
  cases searchAltWsRun ["lte_snr:".toList, "nr_snr:".toList] numClass line with
  | none => exact h
  | some cap => exact seedMetricSnr_coherent _ _ h

theorem bbRssi_coherent (line : Str) (i : InfoAcc) (h : infoCoherent i) :
    infoCoherent (bbRssi line i) := by
  unfold bbRssi
  cases searchLitRun "lte_rssi:".toList numClass line with
  | none => exact h
  | some cap => exact seedMetricRssi_coherent _ _ h

theorem bottomBlock_coherent (i : InfoAcc) (line : Str) (h : infoCoherent i) :
    infoCoherent (bottomBlock i line) :=
  bbRssi_coherent _ _ (bbSnr_coherent _ _ (bbRsrq_coherent _ _ (bbRsrp_coherent _ _
    (bbBands_coherent _ _ (bbPci_coherent _ _ (bbChannel_coherent _ _
      (bbTac_coherent _ _ (bbCell_coherent _ _ h))))))))

theorem cbChannel_coherent (st : ParseState) (e : CellEntry) (line : Str)
    (h : infoCoherent st.info) : infoCoherent (cbChannel st e line).info := by
  unfold cbChannel
  cases hch : searchLitRun "channel:".toList Char.isDigit line <;>
    cases hpc : searchLitRun "pci:".toList Char.isDigit line <;>
      dsimp only <;> (try split_ifs) <;> simpa [infoCoherent] using h

theorem cbNrChannel_coherent (st : ParseState) (e : CellEntry) (line : Str)
    (h : infoCoherent st.info) : infoCoherent (cbNrChannel st e line).info := by
  unfold cbNrChannel
  dsimp only
  split_ifs <;> simpa [infoCoherent] using h

theorem cbNrPci_coherent (st : ParseState) (e : CellEntry) (line : Str)
    (h : infoCoherent st.info) : infoCoherent (cbNrPci st e line).info := by
  unfold cbNrPci
  dsimp only
  split_ifs <;> simpa [infoCoherent] using h

theorem cbNrBw_coherent (st : ParseState) (e : CellEntry) (line : Str)
    (h : infoCoherent st.info) : infoCoherent (cbNrBw st e line).info := h

theorem cbLteRsrp_coherent (st : ParseState) (e : CellEntry) (line : Str)
    (h : infoCoherent st.info) : infoCoherent (cbLteRsrp st e line).info := by
  unfold cbLteRsrp
  cases hr : searchLitRun "lte_rsrp:".toList numClass line <;>
    cases hq : searchLitRun "rsrq:".toList numClass line <;> dsimp only
  · exact h
  · exact seedMetricRsrq_coherent _ _ h
  · exact seedMetricRsrp_coherent _ _ h
  · exact seedMetricRsrq_coherent _ _ (seedMetricRsrp_coherent _ _ h)

theorem cbLteRssi_coherent (st : ParseState) (e : CellEntry) (line : Str)
    (h : infoCoherent st.info) : infoCoherent (cbLteRssi st e line).info := by
  unfold cbLteRssi
  cases hr : searchLitRun "lte_rssi:".toList numClass line <;>
    cases hq : searchLitRun "lte_snr:".toList numClass line <;> dsimp only
  · exact h
  · exact seedMetricSnr_coherent _ _ h
  · exact seedMetricRssi_coherent _ _ h
  · exact seedMetricSnr_coherent _ _ (seedMetricRssi_coherent _ _ h)

theorem cbNrRsrp_coherent (st : ParseState) (e : CellEntry) (line : Str)
    (h : infoCoherent st.info) : infoCoherent (cbNrRsrp st e line).info := by
  unfold cbNrRsrp
  cases hr : searchLitRun "nr_rsrp:".toList numClass line <;> dsimp only
  · exact h
  · exact seedMetricRsrp_coherent _ _ h

theorem cbNrRsrq_coherent (st : ParseState) (e : CellEntry) (line : Str)
    (h : infoCoherent st.info) : infoCoherent (cbNrRsrq st e line).info := by
  unfold cbNrRsrq
  cases hr : searchLitRun "nr_rsrq:".toList numClass line <;> dsimp only
  · exact h
  · exact seedMetricRsrq_coherent _ _ h

theorem cbNrRssi_coherent (st : ParseState) (e : CellEntry) (line : Str)
    (h : infoCoherent st.info) : infoCoherent (cbNrRssi st e line).info := by
  unfold cbNrRssi
  cases hr : searchLitRun "nr_rssi:".toList numClass line <;> dsimp only
  · exact h
  · exact seedMetricRssi_coherent _ _ h

theorem cbNrSnr_coherent (st : ParseState) (e : CellEntry) (line : Str)
    (h : infoCoherent st.info) : infoCoherent (cbNrSnr st e line).info := by
  unfold cbNrSnr
  cases hr : searchLitRun "nr_snr:".toList numClass line <;> dsimp only
  · exact h
  · exact seedMetricSnr_coherent _ _ h

theorem currentBranch_coherent (st : ParseState) (line : Str)
    (h : infoCoherent st.info) : infoCoherent (currentBranch st line).info := by
  unfold currentBranch
  cases hcur : st.current with
  | none => exact bottomBlock_coherent st.info line h
  | some e =>
    dsimp only
    by_cases h1 : startsWithS "channel:".toList line = true ∧ e.technology = "LTE".toList
    · rw [if_pos h1]
      exact cbChannel_coherent st e line h
    rw [if_neg h1]
    by_cases h2 : startsWithS "nr_channel:".toList line = true ∧ e.technology = "NR".toList
    · rw [if_pos h2]
      exact cbNrChannel_coherent st e line h
    rw [if_neg h2]
    by_cases h3 : startsWithS "nr_pci:".toList line = true ∧ e.technology = "NR".toList
    · rw [if_pos h3]
      exact cbNrPci_coherent st e line h
    rw [if_neg h3]
    by_cases h4 : startsWithS "nr_band_width:".toList line = true ∧ e.technology = "NR".toList
    · rw [if_pos h4]
      exact cbNrBw_coherent st e line h
    rw [if_neg h4]
    by_cases h5 : startsWithS "lte_rsrp:".toList line = true ∧ e.technology = "LTE".toList
    · rw [if_pos h5]
      exact cbLteRsrp_coherent st e line h
    rw [if_neg h5]
    by_cases h6 : startsWithS "lte_rssi:".toList line = true ∧ e.technology = "LTE".toList
    · rw [if_pos h6]
      exact cbLteRssi_coherent st e line h
    rw [if_neg h6]
    by_cases h7 : startsWithS "nr_rsrp:".toList line = true ∧ e.technology = "NR".toList
    · rw [if_pos h7]
      exact cbNrRsrp_coherent st e line h
    rw [if_neg h7]
    by_cases h8 : startsWithS "nr_rsrq:".toList line = true ∧ e.technology = "NR".toList
    · rw [if_pos h8]
      exact cbNrRsrq_coherent st e line h
    rw [if_neg h8]
    by_cases h9 : startsWithS "nr_rssi:".toList line = true ∧ e.technology = "NR".toList
    · rw [if_pos h9]
      exact cbNrRssi_coherent st e line h
    rw [if_neg h9]
    by_cases h10 : startsWithS "nr_snr:".toList line = true ∧ e.technology = "NR".toList
    · rw [if_pos h10]
      exact cbNrSnr_coherent st e line h
    rw [if_neg h10]
    exact bottomBlock_coherent st.info line h

theorem seedBands_coherent (i : InfoAcc) (band : Option Str)
    (h : infoCoherent i) : infoCoherent (seedBands i band) := by
  unfold seedBands
  cases band with
  | none => exact h
  | some b => split_ifs <;> simpa [infoCoherent] using h

theorem dispatchRest_coherent (st : ParseState) (line : Str)
    (h : infoCoherent st.info) : infoCoherent (dispatchRest st line).info := by
  unfold dispatchRest
  by_cases ha : startsWithS "lte_ant_rsrp".toList line = true
  · rw [if_pos ha]
    exact h
  rw [if_neg ha]
  by_cases hb : startsWithS "lte_tx_pwr".toList line = true
  · rw [if_pos hb]
    exact h
  rw [if_neg hb]
  by_cases hc : startsWithS "nr_tx_pwr".toList line = true
  · rw [if_pos hc]
    exact h
  rw [if_neg hc]
  by_cases hd : startsWithS "pcell:".toList line = true
  · rw [if_pos hd]
    exact seedBands_coherent _ _ h
  rw [if_neg hd]
  by_cases he2 : startsWithS "scell:".toList line = true
  · rw [if_pos he2]
    exact seedBands_coherent _ _ h
  rw [if_neg he2]
  by_cases hf : startsWithS "nr_band:".toList line = true
  · rw [if_pos hf]
    exact seedBands_coherent _ _ h
  rw [if_neg hf]
  exact currentBranch_coherent st line h

theorem processLine_coherent (st : ParseState) (raw : Str)
    (h : infoCoherent st.info) : infoCoherent (processLine st raw).info := by
  unfold processLine
  cases hp : preprocessLine raw with
  | none => exact h
  | some line =>
    dsimp only
    by_cases hrat : startsWithS "rat:".toList (pyLower line) = true
    · rw [if_pos hrat]
      simpa [infoCoherent] using h
    · rw [if_neg hrat]
      cases hm1 : searchLitRun "mcc:".toList Char.isDigit line <;>
        cases hm2 : searchLitRun "mnc:".toList Char.isDigit line <;> dsimp only
      · exact dispatchRest_coherent st line h
      · exact dispatchRest_coherent st line h
      · exact dispatchRest_coherent st line h
      · simpa [infoCoherent] using h

theorem parseDebugLines_coherent (ls : List Str) :
    infoCoherent (parseDebugLines ls).info := by
  have hfold : ∀ st : ParseState, infoCoherent st.info →
      infoCoherent (ls.foldl processLine st).info := by
    induction ls with
    | nil => exact fun st h => h
    | cons l rest ih => exact fun st h => ih _ (processLine_coherent st l h)
  have hres := hfold initState (by constructor <;> simp [initState, initInfo])
  exact ⟨hres.1, hres.2.1, hres.2.2.1, hres.2.2.2⟩

/-- C8: the vendor-text parser is a total function of the input text
(the model is a plain Lean function, so no input can raise), and a
malformed or missing numeric token degrades to an absent value whose
display string is "-": for every input, each top-level metric display is
"-" exactly when its numeric shadow is absent, and on the concrete
malformed line lte_rsrp:abc the rsrp value is absent with display "-",
both without and with an open entry (where the per-entry metric also
degrades to an absent value displayed as N/A). -/
theorem parse_lossy_numeric (text : Str) :
    (((parse_debug_output text).info.rsrp = dashS ↔
        (parse_debug_output text).info.rsrp_value = none) ∧
     ((parse_debug_output text).info.rsrq = dashS ↔
        (parse_debug_output text).info.rsrq_value = none) ∧
     ((parse_debug_output text).info.snr = dashS ↔
        (parse_debug_output text).info.snr_value = none) ∧
     ((parse_debug_output text).info.rssi = dashS ↔
        (parse_debug_output text).info.rssi_value = none)) ∧
    (parse_debug_output "lte_rsrp:abc".toList).info.rsrp_value = none ∧
    (parse_debug_output "lte_rsrp:abc".toList).info.rsrp = dashS ∧
    (parse_debug_output "pcell:\nlte_rsrp:abc".toList).info.rsrp = dashS ∧
    ((parse_debug_output "pcell:\nlte_rsrp:abc".toList).advanced.map
        (fun d => d.metrics.map (fun mm => (mm.value, mm.display)))) =
      [[(none, "N/A".toList), (none, "N/A".toList),
        (none, "N/A".toList), (none, "N/A".toList)]] := by
  refine ⟨parseDebugLines_coherent _, by decide, by decide, by decide, by decide⟩

end RSM
